import Mathlib

/-!
Verification of the command-execution layer of `ghcc` (`ghcc/utils/run.py`):
the `run_command` wrapper over `subprocess.run`, the `error_wrapper`
exception annotator, and the `kill_proc_tree` process-tree killer.

Shallow embedding conventions:
* Byte sequences are `List Nat` (each element a byte value).
* Python strings are `List Nat` of Unicode code points.
* Raising an exception is modelled with `Except`.
* The behaviour of the one `subprocess.run` call inside `run_command`
  (an external effect) is an explicit input of type `RunOutcome`.
-/

/-- Turn a Lean string literal into its list of Unicode code points,
used to embed Python string constants. -/
def strCodes (s : String) : List Nat :=
  s.data.map Char.toNat

/-- Python exception classes relevant to `run.py`:
`subprocess.CalledProcessError`, `subprocess.TimeoutExpired`, `OSError`,
and a stand-in for any other exception class. -/
inductive ExcKind where
  | calledProcessError
  | timeoutExpired
  | osError
  | otherExc (name : List Nat)
deriving DecidableEq, Repr

/-- A Python exception object as `run.py` observes it: its class
(`kind`, the `isinstance` classification, which the dynamic subclass
created by `error_wrapper` preserves), the `returncode` attribute
(present on `CalledProcessError`), the `output` attribute, and whether
`error_wrapper` has replaced `__class__` by the dynamic subclass that
overrides `__str__` (`wrapped`). -/
structure PyException where
  kind : ExcKind
  returncode : Option Int
  output : Option (List Nat)
  wrapped : Bool
deriving DecidableEq, Repr

/-- `CommandResult` from `run.py`: an immutable named tuple of the
command, the return code and the optional captured output bytes. -/
structure CommandResult where
  command : List String
  return_code : Int
  captured_output : Option (List Nat)
deriving DecidableEq, Repr

/-- `error_wrapper(err)` from `run.py`.  For `CalledProcessError` and
`TimeoutExpired` it creates a dynamic subclass of the error's own class
overriding `__str__` and assigns it to `err.__class__`, returning the
same object; every other exception is returned untouched. -/
def error_wrapper (err : PyException) : PyException :=
  if err.kind = .calledProcessError ∨ err.kind = .timeoutExpired then
    { err with wrapped := true }
  else
    err

/-- `MAX_OUTPUT_LENGTH` from `run.py`. -/
def MAX_OUTPUT_LENGTH : Nat := 8192

/-- The bytes `run_command` appends when output is truncated:
`b"\n*** (remaining output truncated) ***"` — note the leading newline. -/
def truncMarker : List Nat :=
  strCodes "\n*** (remaining output truncated) ***"

/-- The marker text as the spec quotes it, without the leading newline:
`"*** (remaining output truncated) ***"`. -/
def specMarker : List Nat :=
  strCodes "*** (remaining output truncated) ***"

/-- The read-back-and-truncate step on the exception path of
`run_command`: `output = f.read(MAX_OUTPUT_LENGTH + 1)`, and if more
than `MAX_OUTPUT_LENGTH` bytes came back, keep the first
`MAX_OUTPUT_LENGTH` and append the truncation marker. -/
def truncateOutput (fileContent : List Nat) : List Nat :=
  let output := fileContent.take (MAX_OUTPUT_LENGTH + 1)
  if MAX_OUTPUT_LENGTH < output.length then
    output.take MAX_OUTPUT_LENGTH ++ truncMarker
  else
    output

/-- What the single `subprocess.run(args, check=True, stdout=f,
stderr=subprocess.STDOUT, timeout=..., ...)` call inside `run_command`
does, as seen from the caller:
* `completed rc out` — the process ran to completion with exit status
  `rc`, having written `out` to the temporary file (with `check=True`,
  `subprocess.run` raises `CalledProcessError` when `rc ≠ 0`);
* `timedOut partialOutput` — the timeout elapsed and
  `TimeoutExpired` was raised, the file holding `partialOutput`;
* `spawnError` — the process could not be started and `OSError`
  was raised. -/
inductive RunOutcome where
  | completed (returncode : Int) (output : List Nat)
  | timedOut (partialOutput : List Nat)
  | spawnError
deriving DecidableEq, Repr

/-- The `OSError` raised on a failed spawn, as `run_command` lets it
propagate: untouched by `error_wrapper`, no attributes set by `run.py`. -/
def osErrorExc : PyException :=
  { kind := .osError, returncode := none, output := none, wrapped := false }

/-- `run_command(args, return_output=..., ignore_errors=..., ...)` from
`run.py`, as a function of the outcome of its single `subprocess.run`
call.  The `@tenacity.retry` decorator in the source is commented out,
so exactly one `subprocess.run` call happens per invocation and an
`OSError` propagates at once.  `CalledProcessError` and
`TimeoutExpired` are caught: the temporary file is read back truncated;
with `ignore_errors` a `CommandResult` is returned whose return code is
`e.returncode` for `CalledProcessError` and `-32768` for
`TimeoutExpired`; otherwise `e.output` is set to the truncated bytes
and `error_wrapper(e)` is raised.  On a completed run (with
`check=True` this means exit status 0) the full file content is
returned when `return_output` (or, vacuously, a nonzero status) asks
for it, and `None` otherwise. -/
def run_command (args : List String) (return_output : Bool)
    (ignore_errors : Bool) (outcome : RunOutcome) :
    Except PyException CommandResult :=
  match outcome with
  | .spawnError => .error osErrorExc
  | .timedOut partialOutput =>
      let output := truncateOutput partialOutput
      if ignore_errors then
        .ok ⟨args, -32768, some output⟩
      else
        .error (error_wrapper
          { kind := .timeoutExpired, returncode := none,
            output := some output, wrapped := false })
  | .completed rc out =>
      if rc ≠ 0 then
        let output := truncateOutput out
        if ignore_errors then
          .ok ⟨args, rc, some output⟩
        else
          .error (error_wrapper
            { kind := .calledProcessError, returncode := some rc,
              output := some output, wrapped := false })
      else
        if return_output ∨ rc ≠ 0 then
          .ok ⟨args, rc, some out⟩
        else
          .ok ⟨args, rc, none⟩

/-- Modelled from the spec: the retry policy the spec (and the
`run_command` docstring) describe — retry `run_command` on `OSError`
up to `stop_after_attempt(6)` with `reraise=True` — which in the source
is only a commented-out `@tenacity.retry` decorator.  `outcomes` lists
what each successive `subprocess.run` attempt would do; `budget` is the
number of retries still allowed after the current attempt. -/
def runCommandSpecRetry (args : List String) (return_output : Bool)
    (ignore_errors : Bool) : Nat → List RunOutcome →
    Except PyException CommandResult
  | _, [] => .error osErrorExc
  | 0, o :: _ => run_command args return_output ignore_errors o
  | budget + 1, o :: rest =>
      match run_command args return_output ignore_errors o with
      | .error e =>
          if e.kind = .osError then
            runCommandSpecRetry args return_output ignore_errors budget rest
          else
            .error e
      | .ok r => .ok r

/-- Errors raised by the `psutil` calls in `kill_proc_tree`:
`psutil.NoSuchProcess` is raised by `psutil.Process(pid)` when no
process with that pid exists. -/
inductive PsutilError where
  | noSuchProcess
deriving DecidableEq, Repr

/-- A snapshot of the OS process table as `psutil` exposes it to
`kill_proc_tree`: the pids currently alive, and the child → parent
edges (`parents.lookup child = some parent`). -/
structure ProcessTable where
  alive : List Nat
  parents : List (Nat × Nat)
deriving DecidableEq, Repr

/-- Whether `root` appears in the parent chain of `q` within `fuel`
steps — the transitive-ancestor test underlying
`psutil.Process.children(recursive=True)`. -/
def ancestorWithin (t : ProcessTable) (root : Nat) : Nat → Nat → Bool
  | 0, _ => false
  | fuel + 1, q =>
      match t.parents.lookup q with
      | none => false
      | some p => p = root || ancestorWithin t root fuel p

/-- `parent.children(recursive=True)`: every live process that descends
from `root`.  The parent chain of a live process has length at most the
number of live processes, so `t.alive.length` steps of fuel suffice. -/
def descendants (t : ProcessTable) (root : Nat) : List Nat :=
  t.alive.filter (fun q => ancestorWithin t root t.alive.length q)

/-- `kill_proc_tree(pid, including_parent=True)` from `run.py`, acting
on a process-table snapshot and returning the table after the kills.
`psutil.Process(pid)` raises `NoSuchProcess` when `pid` is not alive —
`run.py` has no try/except around it, so the exception propagates.
Otherwise every recursive descendant is sent SIGKILL, the call waits
up to 5 seconds for them (`psutil.wait_procs`), and when
`including_parent` the root itself is killed and waited on.  In this
race-free snapshot model the kills succeed, so the killed pids leave
the table. -/
def kill_proc_tree (pid : Nat) (including_parent : Bool)
    (t : ProcessTable) : Except PsutilError ProcessTable :=
  if t.alive.contains pid then
    let children := descendants t pid
    let afterChildren : ProcessTable :=
      { t with alive := t.alive.filter (fun q => !children.contains q) }
    if including_parent then
      .ok { afterChildren with
            alive := afterChildren.alive.filter (fun q => q ≠ pid) }
    else
      .ok afterChildren
  else
    .error .noSuchProcess

/-- The two kinds of Unicode errors distinguished in
`error_wrapper.__str__`: the code's `except` clause names
`UnicodeEncodeError`, while `bytes.decode('utf-8')` raises
`UnicodeDecodeError` on invalid input. -/
inductive UnicodeError where
  | decodeError
  | encodeError
deriving DecidableEq, Repr

/-- Strict UTF-8 decoding of a byte sequence into Unicode code points,
as performed by Python's `bytes.decode('utf-8')`; a malformed sequence
raises `UnicodeDecodeError` (never `UnicodeEncodeError`). -/
def utf8Decode : List Nat → Except UnicodeError (List Nat)
  | [] => .ok []
  | b :: rest =>
      if b < 0x80 then
        (utf8Decode rest).map (fun cs => b :: cs)
      else if 0xC2 ≤ b ∧ b ≤ 0xDF then
        match rest with
        | b1 :: rest1 =>
            if 0x80 ≤ b1 ∧ b1 ≤ 0xBF then
              (utf8Decode rest1).map
                (fun cs => ((b - 0xC0) * 0x40 + (b1 - 0x80)) :: cs)
            else .error .decodeError
        | [] => .error .decodeError
      else if 0xE0 ≤ b ∧ b ≤ 0xEF then
        match rest with
        | b1 :: b2 :: rest2 =>
            let lo1 := if b = 0xE0 then 0xA0 else 0x80
            let hi1 := if b = 0xED then 0x9F else 0xBF
            if (lo1 ≤ b1 ∧ b1 ≤ hi1) ∧ (0x80 ≤ b2 ∧ b2 ≤ 0xBF) then
              (utf8Decode rest2).map
                (fun cs => ((b - 0xE0) * 0x1000 + (b1 - 0x80) * 0x40
                  + (b2 - 0x80)) :: cs)
            else .error .decodeError
        | _ => .error .decodeError
      else if 0xF0 ≤ b ∧ b ≤ 0xF4 then
        match rest with
        | b1 :: b2 :: b3 :: rest3 =>
            let lo1 := if b = 0xF0 then 0x90 else 0x80
            let hi1 := if b = 0xF4 then 0x8F else 0xBF
            if (lo1 ≤ b1 ∧ b1 ≤ hi1) ∧ (0x80 ≤ b2 ∧ b2 ≤ 0xBF)
                ∧ (0x80 ≤ b3 ∧ b3 ≤ 0xBF) then
              (utf8Decode rest3).map
                (fun cs => ((b - 0xF0) * 0x40000 + (b1 - 0x80) * 0x1000
                  + (b2 - 0x80) * 0x40 + (b3 - 0x80)) :: cs)
            else .error .decodeError
        | _ => .error .decodeError
      else .error .decodeError

/-- Split a code-point string at newline characters, Python's
`s.split('\n')`. -/
def splitOnNl (s : List Nat) : List (List Nat) :=
  s.foldr
    (fun c acc =>
      match acc with
      | [] => if c = 10 then [[], []] else [[c]]
      | line :: more => if c = 10 then [] :: line :: more
        else (c :: line) :: more)
    [[]]

/-- Python's `'\n'.join(f'    {line}' for line in ...)`: prefix each
line with four spaces and rejoin with newlines. -/
def indentLines (s : List Nat) : List Nat :=
  (((splitOnNl s).map (fun line => strCodes "    " ++ line)).intersperse
    (strCodes "\n")).flatten

/-- The overriding `__str__` defined inside `error_wrapper`, applied to
`super().__str__()` (`base`) and the exception's `output` attribute.
When `output` is absent or empty (falsy), a no-output note is appended;
otherwise the bytes are decoded as UTF-8 and appended line-indented.
The `try`/`except` around the decode catches only `UnicodeEncodeError`,
exactly as the source is written — so the `UnicodeDecodeError` that
`decode` actually raises on invalid bytes escapes as an error. -/
def error_wrapper_str (base : List Nat) (output : Option (List Nat)) :
    Except UnicodeError (List Nat) :=
  match output with
  | none => .ok (base ++ strCodes "\nNo output was generated.")
  | some bs =>
      if bs.isEmpty then
        .ok (base ++ strCodes "\nNo output was generated.")
      else
        match utf8Decode bs with
        | .ok cs =>
            .ok (base ++ strCodes "\nCaptured output:\n" ++ indentLines cs)
        | .error e =>
            if e = .encodeError then
              .ok (base ++ strCodes "\nFailed to parse output.")
            else
              .error e

theorem strCodes_length (s : String) : (strCodes s).length = s.length := by
  simp only [strCodes, List.length_map]
  rfl

theorem truncateOutput_of_long (bs : List Nat)
    (h : MAX_OUTPUT_LENGTH < bs.length) :
    truncateOutput bs = bs.take MAX_OUTPUT_LENGTH ++ truncMarker := by
  have hc : MAX_OUTPUT_LENGTH < (bs.take (MAX_OUTPUT_LENGTH + 1)).length := by
    rw [List.length_take]
    omega
  have hmin : min MAX_OUTPUT_LENGTH (MAX_OUTPUT_LENGTH + 1) = MAX_OUTPUT_LENGTH := by
    omega
  simp only [truncateOutput]
  rw [if_pos hc, List.take_take, hmin]

theorem truncMarker_length : truncMarker.length = 37 := by
  decide

/-- Claim C1, the code evaluated at the failing input: the
`@tenacity.retry` decorator on `run_command` is commented out in the
source, so a spawn-level `OSError` is re-raised on the very first
attempt with no retry, no backoff sleep and no
`_run_command_retry_logger` call, while the always-active retry policy
that the claim (and the function's own docstring) describes —
`runCommandSpecRetry` — would have retried and succeeded on an attempt
sequence whose second spawn works. -/
theorem run_command_spawn_error_not_retried :
    run_command ["gcc", "main.c"] false false .spawnError = .error osErrorExc ∧
    runCommandSpecRetry ["gcc", "main.c"] false false 5
      [.spawnError, .completed 0 []] = .ok ⟨["gcc", "main.c"], 0, none⟩ :=
  ⟨rfl, rfl⟩

/-- Claim C2, counterexample: in suppress-errors mode
(`ignore_errors=True`) a spawn failure is NOT converted to a
`CommandResult` — the `except` clause catches only
`CalledProcessError` and `TimeoutExpired`, so the `OSError` propagates
to the caller, contradicting the claim that no failure propagates. -/
theorem run_command_suppress_spawn_counterexample :
    run_command ["sh", "-c", "exit 3"] false true .spawnError = .error osErrorExc ∧
    (run_command ["sh", "-c", "exit 3"] false true .spawnError).isOk = false :=
  ⟨rfl, rfl⟩

/-- Claim C2 as amended: in suppress-errors mode the two failures the
`except` clause catches — nonzero exit and timeout — are converted to a
`CommandResult` carrying the process's return code resp. the sentinel
`-32768` instead of raising; spawn errors are outside this guarantee. -/
theorem run_command_suppress_converts_caught_failures (args : List String)
    (ro : Bool) (rc : Int) (out po : List Nat) (h : rc ≠ 0) :
    run_command args ro true (.completed rc out) =
      .ok ⟨args, rc, some (truncateOutput out)⟩ ∧
    run_command args ro true (.timedOut po) =
      .ok ⟨args, -32768, some (truncateOutput po)⟩ := by
  constructor
  · simp [run_command, h]
  · rfl

/-- Witness for the amended claim C2 at the spec's own end-to-end
example: a command exiting with code 3 in suppress mode yields
`CommandResult(..., return_code=3, captured_output=<its output>)`. -/
theorem run_command_suppress_converts_caught_failures_witness :
    (3 : Int) ≠ 0 ∧
    (run_command ["sh", "-c", "exit 3"] false true
        (.completed 3 (strCodes "out")) =
      .ok ⟨["sh", "-c", "exit 3"], 3, some (truncateOutput (strCodes "out"))⟩ ∧
    run_command ["sh", "-c", "exit 3"] false true (.timedOut []) =
      .ok ⟨["sh", "-c", "exit 3"], -32768, some (truncateOutput [])⟩) :=
  ⟨by decide,
    run_command_suppress_converts_caught_failures ["sh", "-c", "exit 3"]
      false 3 (strCodes "out") [] (by decide)⟩

/-- Claim C7: a command exceeding its timeout raises, in default mode,
an error still classified as `TimeoutExpired` (only wrapped by
`error_wrapper`) carrying the partial, possibly truncated, output; in
suppress-errors mode it returns a `CommandResult` with the reserved
sentinel return code `-32768` and the same partial output. -/
theorem run_command_timeout_behaviour (args : List String) (ro : Bool)
    (po : List Nat) :
    run_command args ro false (.timedOut po) =
      .error { kind := .timeoutExpired, returncode := none,
               output := some (truncateOutput po), wrapped := true } ∧
    run_command args ro true (.timedOut po) =
      .ok ⟨args, -32768, some (truncateOutput po)⟩ :=
  ⟨rfl, rfl⟩

/-- Claim C8: a command that exits 0 with `return_output=True` yields
the exact combined stdout/stderr bytes, untruncated; in particular
`["printf", "hello"]` yields
`CommandResult(command=["printf","hello"], return_code=0,
captured_output=b"hello")`. -/
theorem run_command_success_exact_output (args : List String) (ie : Bool)
    (out : List Nat) :
    run_command args true ie (.completed 0 out) = .ok ⟨args, 0, some out⟩ ∧
    run_command ["printf", "hello"] true false
        (.completed 0 (strCodes "hello")) =
      .ok ⟨["printf", "hello"], 0, some (strCodes "hello")⟩ :=
  ⟨rfl, rfl⟩

/-- Claim C9: `error_wrapper` preserves the failure's classification —
the exception's class-kind, return code and output are unchanged, so a
caller discriminating timeout from nonzero exit can still do so on the
annotated failure; only the textual rendering (the `wrapped` `__str__`)
changes. -/
theorem error_wrapper_preserves_classification (e : PyException) :
    (error_wrapper e).kind = e.kind ∧
    ((error_wrapper e).kind = .timeoutExpired ↔ e.kind = .timeoutExpired) ∧
    ((error_wrapper e).kind = .calledProcessError ↔
      e.kind = .calledProcessError) ∧
    (error_wrapper e).returncode = e.returncode ∧
    (error_wrapper e).output = e.output := by
  unfold error_wrapper
  split <;> simp

/-- Claim C10: on any exception that is neither `CalledProcessError`
nor `TimeoutExpired`, `error_wrapper` is the identity — the object is
returned unmodified, class, attributes and textual rendering included. -/
theorem error_wrapper_identity_on_other_exceptions (e : PyException)
    (h1 : e.kind ≠ .calledProcessError) (h2 : e.kind ≠ .timeoutExpired) :
    error_wrapper e = e := by
  unfold error_wrapper
  rw [if_neg]
  rintro (h | h)
  · exact h1 h
  · exact h2 h

/-- Witness for claim C10 at the concrete `OSError` exception raised on
a failed spawn. -/
theorem error_wrapper_identity_witness :
    osErrorExc.kind ≠ ExcKind.calledProcessError ∧
    osErrorExc.kind ≠ ExcKind.timeoutExpired ∧
    error_wrapper osErrorExc = osErrorExc :=
  ⟨by decide, by decide,
    error_wrapper_identity_on_other_exceptions osErrorExc
      (by decide) (by decide)⟩

/-- Claim C3, counterexample: a failing command with 8193 bytes of
output gets captured output of length `8192 + 37` — the appended bytes
are `b"\n*** (remaining output truncated) ***"`, whose leading newline
the claim's `8192 + len("*** (remaining output truncated) ***")` does
not count. -/
theorem run_command_truncation_length_counterexample :
    run_command ["cmd"] false true (.completed 1 (List.replicate 8193 97)) =
      .ok ⟨["cmd"], 1, some (List.replicate 8192 97 ++ truncMarker)⟩ ∧
    (List.replicate 8192 97 ++ truncMarker).length ≠
      8192 + (strCodes "*** (remaining output truncated) ***").length := by
  have hlen : MAX_OUTPUT_LENGTH < (List.replicate 8193 (97 : Nat)).length := by
    simp only [List.length_replicate, MAX_OUTPUT_LENGTH]
    omega
  have htake : (List.replicate 8193 (97 : Nat)).take MAX_OUTPUT_LENGTH =
      List.replicate 8192 97 := by
    rw [List.take_replicate]
    norm_num [MAX_OUTPUT_LENGTH]
  have h1 : truncateOutput (List.replicate 8193 97) =
      List.replicate 8192 97 ++ truncMarker := by
    rw [truncateOutput_of_long _ hlen, htake]
  constructor
  · calc run_command ["cmd"] false true (.completed 1 (List.replicate 8193 97))
        = .ok ⟨["cmd"], 1, some (truncateOutput (List.replicate 8193 97))⟩ :=
          rfl
      _ = .ok ⟨["cmd"], 1, some (List.replicate 8192 97 ++ truncMarker)⟩ := by
          rw [h1]
  · rw [List.length_append, List.length_replicate, truncMarker_length,
      strCodes_length]
    decide

/-- Claim C3 as amended: only failing commands (nonzero exit or
timeout) have their output truncated — a successful run with
`return_output=True` returns the full bytes — and for those the
captured output, whether attached to the suppress-mode
`CommandResult` or to the raised annotated failure's `output`
attribute in default mode, has length exactly
`8192 + len(b"\n*** (remaining output truncated) ***")` (the marker
bytes include a leading newline, 37 bytes in all) and ends with the
marker text. -/
theorem run_command_failure_truncation (args : List String) (bs : List Nat)
    (rc : Int) (hlen : MAX_OUTPUT_LENGTH < bs.length) (hrc : rc ≠ 0) :
    run_command args false true (.completed rc bs) =
      .ok ⟨args, rc, some (bs.take MAX_OUTPUT_LENGTH ++ truncMarker)⟩ ∧
    run_command args false true (.timedOut bs) =
      .ok ⟨args, -32768, some (bs.take MAX_OUTPUT_LENGTH ++ truncMarker)⟩ ∧
    run_command args false false (.completed rc bs) =
      .error { kind := .calledProcessError, returncode := some rc,
               output := some (bs.take MAX_OUTPUT_LENGTH ++ truncMarker),
               wrapped := true } ∧
    run_command args false false (.timedOut bs) =
      .error { kind := .timeoutExpired, returncode := none,
               output := some (bs.take MAX_OUTPUT_LENGTH ++ truncMarker),
               wrapped := true } ∧
    run_command args true false (.completed 0 bs) = .ok ⟨args, 0, some bs⟩ ∧
    (bs.take MAX_OUTPUT_LENGTH ++ truncMarker).length =
      MAX_OUTPUT_LENGTH + truncMarker.length ∧
    specMarker <:+ bs.take MAX_OUTPUT_LENGTH ++ truncMarker := by
  refine ⟨?_, ?_, ?_, ?_, rfl, ?_, ?_⟩
  · simp [run_command, hrc, truncateOutput_of_long bs hlen]
  · simp [run_command, truncateOutput_of_long bs hlen]
  · simp [run_command, error_wrapper, hrc, truncateOutput_of_long bs hlen]
  · simp [run_command, error_wrapper, truncateOutput_of_long bs hlen]
  · rw [List.length_append, List.length_take]
    omega
  · have hm : truncMarker = [10] ++ specMarker := by decide
    rw [hm, ← List.append_assoc]
    exact List.suffix_append _ _

/-- Witness for the amended claim C3 at a concrete 8193-byte output. -/
theorem run_command_failure_truncation_witness :
    MAX_OUTPUT_LENGTH < (List.replicate 8193 (0 : Nat)).length ∧
    (2 : Int) ≠ 0 ∧
    (run_command ["cc"] false true (.completed 2 (List.replicate 8193 0)) =
      .ok ⟨["cc"], 2,
        some ((List.replicate 8193 (0 : Nat)).take MAX_OUTPUT_LENGTH ++
          truncMarker)⟩ ∧
    run_command ["cc"] false true (.timedOut (List.replicate 8193 0)) =
      .ok ⟨["cc"], -32768,
        some ((List.replicate 8193 (0 : Nat)).take MAX_OUTPUT_LENGTH ++
          truncMarker)⟩ ∧
    run_command ["cc"] false false (.completed 2 (List.replicate 8193 0)) =
      .error { kind := .calledProcessError, returncode := some 2,
               output := some ((List.replicate 8193 (0 : Nat)).take
                 MAX_OUTPUT_LENGTH ++ truncMarker),
               wrapped := true } ∧
    run_command ["cc"] false false (.timedOut (List.replicate 8193 0)) =
      .error { kind := .timeoutExpired, returncode := none,
               output := some ((List.replicate 8193 (0 : Nat)).take
                 MAX_OUTPUT_LENGTH ++ truncMarker),
               wrapped := true } ∧
    run_command ["cc"] true false (.completed 0 (List.replicate 8193 0)) =
      .ok ⟨["cc"], 0, some (List.replicate 8193 0)⟩ ∧
    ((List.replicate 8193 (0 : Nat)).take MAX_OUTPUT_LENGTH ++
        truncMarker).length = MAX_OUTPUT_LENGTH + truncMarker.length ∧
    specMarker <:+
      (List.replicate 8193 (0 : Nat)).take MAX_OUTPUT_LENGTH ++ truncMarker) :=
  ⟨by simp only [List.length_replicate, MAX_OUTPUT_LENGTH]; omega, by decide,
    run_command_failure_truncation ["cc"] (List.replicate 8193 0) 2
      (by simp only [List.length_replicate, MAX_OUTPUT_LENGTH]; omega)
      (by decide)⟩

/-- Claim C4, the code evaluated at the failing input: on captured
output that is not valid UTF-8 (here the single byte `0xFF`), the
`__str__` installed by `error_wrapper` raises instead of appending a
decoding-failure note — its `try`/`except` names `UnicodeEncodeError`
while `bytes.decode('utf-8')` raises `UnicodeDecodeError`, so the
decode error escapes. -/
theorem error_wrapper_str_raises_on_invalid_utf8 :
    utf8Decode [255] = .error .decodeError ∧
    UnicodeError.decodeError ≠ UnicodeError.encodeError ∧
    error_wrapper_str
        (strCodes "Command c returned non-zero exit status 1.")
        (some [255]) =
      .error .decodeError :=
  ⟨rfl, by decide, rfl⟩

/-- Claim C5, counterexample: calling `kill_proc_tree` on a pid that
has already exited raises `psutil.NoSuchProcess` out of
`psutil.Process(pid)` — nothing in the function catches it — rather
than returning without error. -/
theorem kill_proc_tree_dead_pid_counterexample :
    kill_proc_tree 42 true ⟨[], []⟩ = .error .noSuchProcess :=
  rfl

/-- Claim C5 as amended: `kill_proc_tree` returns without error exactly
when the root pid is alive at the time of the call; on a pid that has
already exited it raises `NoSuchProcess` instead of treating the
process as already-handled. -/
theorem kill_proc_tree_ok_iff_pid_alive (pid : Nat) (b : Bool)
    (t : ProcessTable) :
    (kill_proc_tree pid b t).isOk = t.alive.contains pid := by
  unfold kill_proc_tree
  split
  · next hc =>
      rw [hc]
      cases b
      · rfl
      · rfl
  · next hc =>
      rw [Bool.not_eq_true] at hc
      rw [hc]
      rfl

/-- Claim C6: every `CommandResult` that `run_command` returns has
`captured_output` present exactly when the caller requested output
(`return_output=True`) or the return code is nonzero. -/
theorem run_command_captured_output_iff (args : List String) (ro ie : Bool)
    (o : RunOutcome) (r : CommandResult)
    (h : run_command args ro ie o = .ok r) :
    r.captured_output.isSome = true ↔ (ro = true ∨ r.return_code ≠ 0) := by
  cases o with
  | spawnError => simp [run_command] at h
  | timedOut po =>
      cases ie
      · simp [run_command] at h
      · simp [run_command] at h
        subst h
        refine ⟨fun _ => Or.inr (by norm_num), fun _ => rfl⟩
  | completed rc out =>
      by_cases hrc : rc = 0
      · subst hrc
        cases ro
        · simp [run_command] at h
          subst h
          simp
        · simp [run_command] at h
          subst h
          simp
      · cases ie
        · simp [run_command, hrc] at h
        · simp [run_command, hrc] at h
          subst h
          simp [hrc]

/-- Witness for claim C6 at the spec's `["printf", "hello"]` example. -/
theorem run_command_captured_output_iff_witness :
    run_command ["printf", "hello"] true false
        (.completed 0 (strCodes "hello")) =
      .ok ⟨["printf", "hello"], 0, some (strCodes "hello")⟩ ∧
    ((some (strCodes "hello")).isSome = true ↔
      (true = true ∨ (0 : Int) ≠ 0)) :=
  ⟨rfl, run_command_captured_output_iff ["printf", "hello"] true false
    (.completed 0 (strCodes "hello"))
    ⟨["printf", "hello"], 0, some (strCodes "hello")⟩ rfl⟩
